import Mathlib

/-!
Verification of the Nearby-Places Resolver (`/api/nearby` in `main.py`).

The handler is embedded shallowly:
* element records of the upstream JSON `elements` array become `RawElement`
  (optional fields model missing dictionary keys; `el["k"]` on a missing key
  is a `KeyError`, modelled as `Except.error "'k'"`, Python's `str(KeyError)`);
* coordinates are rationals (every IEEE float is a rational);
* the haversine distance is over the reals, mirroring `math.sin`, `math.cos`,
  `math.sqrt`, `math.atan2`, `math.radians` and Python `int()` truncation;
* the outcome of the `httpx.post` / `raise_for_status` / `.json()` sequence is
  an explicit input `UpstreamOutcome`: one of three failure modes carrying the
  exception's string rendering, or the parsed `elements` list.
-/

namespace Navio

/-- One record of the upstream `elements` array.  `none` in an optional field
models a missing dictionary key; `tags` models `el.get("tags", {})` (a missing
`tags` key and an empty tags dictionary coincide as `[]`).  `center?` is a
dictionary from string keys to numbers, so a present-but-empty or a
present-but-lat/lon-less center is representable. -/
structure RawElement where
  type? : Option String
  lat? : Option ℚ
  lon? : Option ℚ
  center? : Option (List (String × ℚ))
  tags : List (String × String)
deriving DecidableEq

/-- Round half to even, Python's `round` tie-breaking rule. -/
def roundHalfEven (x : ℚ) : ℤ :=
  if x - ⌊x⌋ < 1/2 then ⌊x⌋
  else if 1/2 < x - ⌊x⌋ then ⌊x⌋ + 1
  else if ⌊x⌋ % 2 = 0 then ⌊x⌋ else ⌊x⌋ + 1

/-- Python `round(x, 4)` from `coord_key = (round(elat, 4), round(elng, 4))`. -/
def round4 (x : ℚ) : ℚ := (roundHalfEven (x * 10000) : ℚ) / 10000

/-- Coordinate extraction for one element (`main.py` lines 267-273):
`el["type"]` (KeyError when missing); a `"node"` reads `el["lat"], el["lon"]`
(KeyError when either is missing); any other type reads
`el.get("center", {})`, skips the element (`continue`, here `.ok none`) when
that dictionary is empty, and otherwise takes
`center.get("lat", lat), center.get("lon", lng)` — the query point's own
coordinates are the defaults. -/
def processElement (lat lng : ℚ) (el : RawElement) : Except String (Option (ℚ × ℚ)) :=
  match el.type? with
  | none => .error "\x27type\x27"
  | some t =>
    if t = "node" then
      match el.lat? with
      | none => .error "\x27lat\x27"
      | some a =>
        match el.lon? with
        | none => .error "\x27lon\x27"
        | some b => .ok (some (a, b))
    else
      let center := el.center?.getD []
      if center = [] then .ok none
      else .ok (some ((center.lookup "lat").getD lat, (center.lookup "lon").getD lng))

/-- Python `str.title()` for ASCII letters: a letter not preceded by a letter
is uppercased, a letter preceded by a letter is lowercased. -/
def pyTitleAux : List Char → Bool → List Char
  | [], _ => []
  | c :: cs, prevCased =>
    if c.isAlpha then (if prevCased then c.toLower else c.toUpper) :: pyTitleAux cs true
    else c :: pyTitleAux cs false

/-- Python `str.title()`. -/
def pyTitle (s : String) : String := ⟨pyTitleAux s.data false⟩

/-- The static `label_map` of `friendly_name` (`main.py` lines 232-246). -/
def label_map : List (String × String) :=
  [("bench",         "Seating / Rest Spot"),
   ("toilets",       "Public Washroom"),
   ("shelter",       "Shelter / Rest Area"),
   ("hospital",      "Hospital (Has Washrooms)"),
   ("clinic",        "Clinic (Has Washrooms)"),
   ("pharmacy",      "Pharmacy"),
   ("doctors",       "Doctor"),
   ("health_centre", "Health Centre"),
   ("park",          "Park"),
   ("elevator",      "Elevator"),
   ("cafe",          "Café (Has Washrooms)"),
   ("restaurant",    "Restaurant (Has Washrooms)"),
   ("mall",          "Shopping Mall (Has Washrooms)")]

/-- The `for key in [...]` scan of `friendly_name`: first key found in
`label_map` wins, otherwise the generic fallback. -/
def labelScan : List String → String
  | [] => "Accessible Place"
  | k :: ks =>
    match label_map.lookup k with
    | some v => v
    | none => labelScan ks

/-- The function `friendly_name(tags)` (`main.py` lines 228-250): a truthy `name` tag is
title-cased; otherwise the `(amenity, highway, leisure, shop)` values are
scanned against `label_map` in that order. -/
def friendly_name (tags : List (String × String)) : String :=
  let name := (tags.lookup "name").getD ""
  if name ≠ "" then pyTitle name
  else labelScan [(tags.lookup "amenity").getD "", (tags.lookup "highway").getD "",
                  (tags.lookup "leisure").getD "", (tags.lookup "shop").getD ""]

/-- Python `a or b` for an optional string `a`: `b` when `a` is `None` or
empty. -/
def pyOrStr (a : Option String) (b : String) : String :=
  match a with
  | some s => if s = "" then b else s
  | none => b

/-- The chain `tags.get("addr:street") or tags.get("addr:full") or tags.get("addr:place") or ""`. -/
def addressOf (tags : List (String × String)) : String :=
  pyOrStr (tags.lookup "addr:street")
    (pyOrStr (tags.lookup "addr:full") (pyOrStr (tags.lookup "addr:place") ""))

/-- The comprehension `[t for t in [tags.get("amenity",""), tags.get("highway",""),
tags.get("leisure",""), tags.get("shop","")] if t]`. -/
def typesOf (tags : List (String × String)) : List String :=
  ([(tags.lookup "amenity").getD "", (tags.lookup "highway").getD "",
    (tags.lookup "leisure").getD "", (tags.lookup "shop").getD ""]).filter (fun t => t ≠ "")

/-- Python `math.radians`. -/
noncomputable def radians (x : ℝ) : ℝ := x * Real.pi / 180

/-- Python `math.atan2 y x`, the angle of the point `(x, y)` in `(-π, π]`
(`atan2 0 0 = 0` as in the C library). -/
noncomputable def atan2 (y x : ℝ) : ℝ :=
  if 0 < x then Real.arctan (y / x)
  else if x < 0 ∧ 0 ≤ y then Real.arctan (y / x) + Real.pi
  else if x < 0 then Real.arctan (y / x) - Real.pi
  else if 0 < y then Real.pi / 2
  else if y < 0 then -(Real.pi / 2)
  else 0

/-- Python `int()`: truncation toward zero. -/
noncomputable def pyInt (x : ℝ) : ℤ := if 0 ≤ x then ⌊x⌋ else ⌈x⌉

/-- The closure `haversine(elat, elng)` of the handler (`main.py` lines
221-226), as a real number before the `int()` truncation: Earth radius
6 371 000 m, great-circle formula. -/
noncomputable def haversineR (lat lng elat elng : ℝ) : ℝ :=
  let R : ℝ := 6371000
  let dlat := radians (elat - lat)
  let dlon := radians (elng - lng)
  let a := Real.sin (dlat/2)^2 +
    Real.cos (radians lat) * Real.cos (radians elat) * Real.sin (dlon/2)^2
  R * 2 * atan2 (Real.sqrt a) (Real.sqrt (1 - a))

/-- The function `haversine` including the final `int(...)`: an integer number of meters. -/
noncomputable def haversineZ (lat lng elat elng : ℚ) : ℤ :=
  pyInt (haversineR (lat : ℝ) (lng : ℝ) (elat : ℝ) (elng : ℝ))

/-- One entry of the `places` list (`main.py` lines 282-295). -/
structure Place where
  name : String
  address : String
  lat : ℚ
  lng : ℚ
  distance_m : ℤ
  types : List String
  wheelchair : String
deriving DecidableEq

/-- The dictionary appended to `places` for an element at `(elat, elng)`. -/
noncomputable def mkPlace (lat lng elat elng : ℚ) (tags : List (String × String)) : Place :=
  { name := friendly_name tags
  , address := addressOf tags
  , lat := elat
  , lng := elng
  , distance_m := haversineZ lat lng elat elng
  , types := typesOf tags
  , wheelchair := (tags.lookup "wheelchair").getD "" }

/-- The `for el in elements` loop (`main.py` lines 264-295): `seen` is the set
of rounded coordinate keys, `acc` the `places` list built so far.  A `KeyError`
inside the loop aborts the whole computation (it is caught by the surrounding
`try`). -/
noncomputable def nearbyLoop (lat lng : ℚ) :
    List RawElement → List (ℚ × ℚ) → List Place → Except String (List Place)
  | [], _, acc => .ok acc
  | el :: rest, seen, acc =>
    match processElement lat lng el with
    | .error e => .error e
    | .ok none => nearbyLoop lat lng rest seen acc
    | .ok (some (elat, elng)) =>
      let key := (round4 elat, round4 elng)
      if key ∈ seen then nearbyLoop lat lng rest seen acc
      else nearbyLoop lat lng rest (key :: seen) (acc ++ [mkPlace lat lng elat elng el.tags])

/-- The `places` list after the loop, before sorting and truncation. -/
noncomputable def buildPlaces (lat lng : ℚ) (els : List RawElement) :
    Except String (List Place) :=
  nearbyLoop lat lng els [] []

/-- The selection made by the loop, carrying only each kept element's
coordinates and tags.  This is the spec-side companion of `nearbyLoop`: it
never computes a distance, so it witnesses that which elements are kept is
decided independently of the computed distance. -/
def coordsLoop (lat lng : ℚ) :
    List RawElement → List (ℚ × ℚ) → List ((ℚ × ℚ) × List (String × String)) →
    Except String (List ((ℚ × ℚ) × List (String × String)))
  | [], _, acc => .ok acc
  | el :: rest, seen, acc =>
    match processElement lat lng el with
    | .error e => .error e
    | .ok none => coordsLoop lat lng rest seen acc
    | .ok (some (elat, elng)) =>
      let key := (round4 elat, round4 elng)
      if key ∈ seen then coordsLoop lat lng rest seen acc
      else coordsLoop lat lng rest (key :: seen) (acc ++ [((elat, elng), el.tags)])

/-- Companion of `buildPlaces` built on `coordsLoop`. -/
def buildCoords (lat lng : ℚ) (els : List RawElement) :
    Except String (List ((ℚ × ℚ) × List (String × String))) :=
  coordsLoop lat lng els [] []

/-- The call `places.sort(key=lambda p: p["distance_m"])`: a stable sort on the
integer distance. -/
noncomputable def sortPlaces (ps : List Place) : List Place :=
  ps.mergeSort (fun a b => decide (a.distance_m ≤ b.distance_m))

/-- Outcome of the upstream interaction, an input of the embedded handler:
the three exception classes the `try` block can see before the loop runs
(transport/timeout failure from `httpx.post`, non-success status from
`raise_for_status`, undecodable body from `resp.json()`), each carrying the
exception's string rendering `str(e)`, or the decoded
`resp.json().get("elements", [])` list. -/
inductive UpstreamOutcome where
  | transportFailure (msg : String)
  | statusFailure (msg : String)
  | decodeFailure (msg : String)
  | elements (els : List RawElement)
deriving DecidableEq

/-- The JSON body of the response: `places`, and `error` present exactly on
the degraded path. -/
structure NearbyResult where
  places : List Place
  error : Option String
deriving DecidableEq

/-- The value of the FastAPI parameter `filter: str = "all"` when the query
string omits it. -/
def filterDefault : String := "all"

/-- The `/api/nearby` handler body after the upstream interaction
(`main.py` lines 252-301): any exception degrades to
`{"places": [], "error": str(e)}`; otherwise the loop builds `places`,
which is sorted by distance and truncated to 15 entries. -/
noncomputable def nearby (lat lng : ℚ) (filter : String) (out : UpstreamOutcome) :
    NearbyResult :=
  match out with
  | .transportFailure msg => { places := [], error := some msg }
  | .statusFailure msg => { places := [], error := some msg }
  | .decodeFailure msg => { places := [], error := some msg }
  | .elements els =>
    match buildPlaces lat lng els with
    | .error e => { places := [], error := some e }
    | .ok ps => { places := (sortPlaces ps).take 15, error := none }

/-- The fixed radius `r = 2000` (meters). -/
def overpassRadius : Nat := 2000

/-- One Overpass clause `kind["key"op"value"](around:2000,lat,lng);`. -/
def clause (kind key op value : String) (lat lng : ℚ) : String :=
  kind ++ "[\"" ++ key ++ "\"" ++ op ++ "\"" ++ value ++ "\"](around:" ++
    toString overpassRadius ++ "," ++ toString lat ++ "," ++ toString lng ++ ");"

/-- Layout of the triple-quoted f-strings of `queries_map`: each clause on its
own 12-space-indented line, 8 spaces before the closing quotes. -/
def clausesText (cs : List String) : String :=
  String.join (cs.map (fun c => "\n            " ++ c)) ++ "\n        "

/-- Entry `queries_map["elevator"]`. -/
def elevatorClauses (lat lng : ℚ) : String :=
  clausesText
    [clause "node" "highway" "=" "elevator" lat lng,
     clause "node" "amenity" "=" "elevator" lat lng,
     clause "node" "building" "=" "elevator" lat lng,
     clause "node" "amenity" "=" "hospital" lat lng,
     clause "way" "amenity" "=" "hospital" lat lng,
     clause "node" "amenity" "=" "clinic" lat lng,
     clause "node" "amenity" "=" "mall" lat lng,
     clause "way" "shop" "=" "mall" lat lng]

/-- Entry `queries_map["rest"]`. -/
def restClauses (lat lng : ℚ) : String :=
  clausesText
    [clause "node" "amenity" "=" "bench" lat lng,
     clause "node" "leisure" "=" "park" lat lng,
     clause "way" "leisure" "=" "park" lat lng,
     clause "node" "amenity" "=" "shelter" lat lng,
     clause "node" "tourism" "=" "picnic_site" lat lng,
     clause "node" "amenity" "=" "cafe" lat lng,
     clause "node" "amenity" "=" "restaurant" lat lng]

/-- Entry `queries_map["washroom"]`. -/
def washroomClauses (lat lng : ℚ) : String :=
  clausesText
    [clause "node" "amenity" "=" "toilets" lat lng,
     clause "way" "amenity" "=" "toilets" lat lng,
     clause "node" "amenity" "=" "hospital" lat lng,
     clause "way" "amenity" "=" "hospital" lat lng,
     clause "node" "amenity" "=" "clinic" lat lng,
     clause "node" "amenity" "=" "pharmacy" lat lng,
     clause "node" "shop" "=" "mall" lat lng,
     clause "way" "shop" "=" "mall" lat lng,
     clause "node" "amenity" "=" "cafe" lat lng,
     clause "node" "amenity" "=" "restaurant" lat lng]

/-- Entry `queries_map["hospital"]`. -/
def hospitalClauses (lat lng : ℚ) : String :=
  clausesText
    [clause "node" "amenity" "=" "hospital" lat lng,
     clause "way" "amenity" "=" "hospital" lat lng,
     clause "node" "amenity" "=" "clinic" lat lng,
     clause "node" "amenity" "=" "pharmacy" lat lng,
     clause "node" "amenity" "=" "doctors" lat lng,
     clause "node" "amenity" "=" "health_centre" lat lng]

/-- Entry `queries_map["all"]`. -/
def allClauses (lat lng : ℚ) : String :=
  clausesText
    [clause "node" "amenity" "~" "hospital|clinic|pharmacy|toilets|bench|shelter|cafe|restaurant|doctors" lat lng,
     clause "way" "amenity" "~" "hospital|clinic" lat lng,
     clause "node" "leisure" "=" "park" lat lng,
     clause "way" "leisure" "=" "park" lat lng,
     clause "node" "highway" "=" "elevator" lat lng]

/-- The `queries_map` dictionary (`main.py` lines 169-216). -/
def queriesMap (lat lng : ℚ) : List (String × String) :=
  [("elevator", elevatorClauses lat lng),
   ("rest", restClauses lat lng),
   ("washroom", washroomClauses lat lng),
   ("hospital", hospitalClauses lat lng),
   ("all", allClauses lat lng)]

/-- Lookup `queries_map.get(filter, queries_map["all"])`. -/
def innerQuery (filter : String) (lat lng : ℚ) : String :=
  ((queriesMap lat lng).lookup filter).getD (allClauses lat lng)

/-- The assembled Overpass query (`main.py` line 219). -/
def fullQuery (filter : String) (lat lng : ℚ) : String :=
  "[out:json][timeout:20];\n(\n" ++ innerQuery filter lat lng ++ "\n);\nout center 30;"

theorem arctan_nonneg_of_nonneg {z : ℝ} (hz : 0 ≤ z) : 0 ≤ Real.arctan z := by
  have h := Real.arctan_strictMono.monotone hz
  rwa [Real.arctan_zero] at h

theorem atan2_nonneg {y x : ℝ} (hy : 0 ≤ y) (hx : 0 ≤ x) : 0 ≤ atan2 y x := by
  unfold atan2
  have h1 : ¬ x < 0 := not_lt.mpr hx
  have h2 : ¬ y < 0 := not_lt.mpr hy
  by_cases hx0 : 0 < x
  · simp only [if_pos hx0]
    exact arctan_nonneg_of_nonneg (div_nonneg hy hx)
  · have hand : ¬(x < 0 ∧ 0 ≤ y) := fun h => h1 h.1
    simp only [if_neg hx0, if_neg hand, if_neg h1]
    by_cases hy0 : 0 < y
    · simp only [if_pos hy0]
      linarith [Real.pi_pos]
    · simp only [if_neg hy0, if_neg h2]
      exact le_rfl

theorem haversineR_nonneg (lat lng elat elng : ℝ) : 0 ≤ haversineR lat lng elat elng := by
  unfold haversineR
  exact mul_nonneg (by norm_num) (atan2_nonneg (Real.sqrt_nonneg _) (Real.sqrt_nonneg _))

theorem haversineZ_nonneg (lat lng elat elng : ℚ) : 0 ≤ haversineZ lat lng elat elng := by
  unfold haversineZ pyInt
  rw [if_pos (haversineR_nonneg _ _ _ _)]
  exact Int.floor_nonneg.mpr (haversineR_nonneg _ _ _ _)

theorem haversineR_self (lat lng : ℝ) : haversineR lat lng lat lng = 0 := by
  unfold haversineR radians atan2
  simp

theorem haversineZ_self (lat lng : ℚ) : haversineZ lat lng lat lng = 0 := by
  unfold haversineZ pyInt
  rw [haversineR_self, if_pos le_rfl]
  exact Int.floor_zero

/-- C5: the distance function is the haversine great-circle formula with Earth
radius 6 371 000 m (see `haversineR`), truncated by `int()` to an integer
number of meters (`haversineZ`); the distance from any point to itself is 0,
both before and after truncation. -/
theorem C5_haversine_self_zero :
    (∀ lat lng : ℝ, haversineR lat lng lat lng = 0) ∧
    (∀ lat lng : ℚ, haversineZ lat lng lat lng = 0) :=
  ⟨haversineR_self, haversineZ_self⟩

/-- C1: whichever of the three ways the upstream query fails — transport or
timeout failure, non-success HTTP status, undecodable payload — the handler
returns `{"places": [], "error": str(e)}` (and, the exception rendering being
non-empty, the error string differs from the empty string); no failure
propagates, `nearby` being a total function of the outcome. -/
theorem C1_upstream_failure_degrades (lat lng : ℚ) (filter msg : String)
    (hmsg : msg ≠ "") :
    nearby lat lng filter (.transportFailure msg) = { places := [], error := some msg } ∧
    nearby lat lng filter (.statusFailure msg) = { places := [], error := some msg } ∧
    nearby lat lng filter (.decodeFailure msg) = { places := [], error := some msg } ∧
    some msg ≠ some "" :=
  ⟨rfl, rfl, rfl, fun hc => hmsg (Option.some.inj hc)⟩

theorem C1_witness :
    ("mock timeout" : String) ≠ "" ∧
    nearby 0 0 "all" (.transportFailure "mock timeout") =
      { places := [], error := some "mock timeout" } :=
  ⟨by decide, (C1_upstream_failure_degrades 0 0 "all" "mock timeout" (by decide)).1⟩

/-- C6: a filter that is none of `elevator`, `rest`, `washroom`, `hospital`,
`all` falls back to the `all` clause set, both for the inner clause block and
the assembled query; an absent filter means the default value `"all"`, hence
the same clause set again. -/
theorem C6_unrecognized_filter_uses_all (lat lng : ℚ) (f : String)
    (h : ¬ f ∈ ["elevator", "rest", "washroom", "hospital", "all"]) :
    innerQuery f lat lng = innerQuery "all" lat lng ∧
    fullQuery f lat lng = fullQuery "all" lat lng ∧
    innerQuery filterDefault lat lng = innerQuery "all" lat lng := by
  simp only [List.mem_cons, List.not_mem_nil, or_false, not_or] at h
  obtain ⟨h1, h2, h3, h4, h5⟩ := h
  have e1 : (f == "elevator") = false := beq_eq_false_iff_ne.mpr h1
  have e2 : (f == "rest") = false := beq_eq_false_iff_ne.mpr h2
  have e3 : (f == "washroom") = false := beq_eq_false_iff_ne.mpr h3
  have e4 : (f == "hospital") = false := beq_eq_false_iff_ne.mpr h4
  have e5 : (f == "all") = false := beq_eq_false_iff_ne.mpr h5
  have key : innerQuery f lat lng = allClauses lat lng := by
    simp [innerQuery, queriesMap, List.lookup, e1, e2, e3, e4, e5]
  have keyAll : innerQuery "all" lat lng = allClauses lat lng := by
    simp [innerQuery, queriesMap, List.lookup]
  refine ⟨key.trans keyAll.symm, ?_, keyAll.symm ▸ rfl⟩
  unfold fullQuery
  rw [key, keyAll]

theorem C6_witness :
    ¬ ("foo" : String) ∈ ["elevator", "rest", "washroom", "hospital", "all"] ∧
    innerQuery "foo" 0 0 = innerQuery "all" 0 0 :=
  ⟨by decide, (C6_unrecognized_filter_uses_all 0 0 "foo" (by decide)).1⟩

theorem labelScan_eq_filterMap (ks : List String) :
    labelScan ks = ((ks.filterMap (fun k => label_map.lookup k)).headD "Accessible Place") := by
  induction ks with
  | nil => rfl
  | cons k ks ih =>
    unfold labelScan
    cases h : label_map.lookup k with
    | none => simp [List.filterMap_cons, h, ih]
    | some v => simp [List.filterMap_cons, h]

/-- C4: a present, non-empty `name` tag gives the title-cased name; otherwise
the display name is the first of the `(amenity, highway, leisure, shop)` tag
values that appears in the static `label_map` ("toilets" ↦ "Public Washroom",
"hospital" ↦ "Hospital (Has Washrooms)"), and "Accessible Place" when none
does. -/
theorem C4_friendly_name_spec :
    (∀ tags n, tags.lookup "name" = some n → n ≠ "" →
      friendly_name tags = pyTitle n) ∧
    (∀ tags, (tags.lookup "name").getD "" = "" →
      friendly_name tags =
        (([(tags.lookup "amenity").getD "", (tags.lookup "highway").getD "",
           (tags.lookup "leisure").getD "", (tags.lookup "shop").getD ""].filterMap
             (fun k => label_map.lookup k)).headD "Accessible Place")) ∧
    label_map.lookup "toilets" = some "Public Washroom" ∧
    label_map.lookup "hospital" = some "Hospital (Has Washrooms)" ∧
    friendly_name [("amenity", "toilets")] = "Public Washroom" := by
  refine ⟨?_, ?_, rfl, rfl, rfl⟩
  · intro tags n hn hne
    unfold friendly_name
    rw [hn]
    simp [hne]
  · intro tags hn
    unfold friendly_name
    rw [hn]
    simp [labelScan_eq_filterMap]

theorem C4_witness :
    friendly_name [("name", "city central park")] = "City Central Park" := by
  have h := C4_friendly_name_spec.1 [("name", "city central park")] "city central park"
    rfl (by decide)
  rw [h]
  rfl

theorem nearbyLoop_skip_dup (lat lng a2 b2 : ℚ) (el2 : RawElement)
    (post : List RawElement)
    (h2 : processElement lat lng el2 = .ok (some (a2, b2))) :
    ∀ (mid : List RawElement) (seen : List (ℚ × ℚ)) (acc : List Place),
      (round4 a2, round4 b2) ∈ seen →
      nearbyLoop lat lng (mid ++ el2 :: post) seen acc =
        nearbyLoop lat lng (mid ++ post) seen acc := by
  intro mid
  induction mid with
  | nil =>
    intro seen acc hseen
    simp only [List.nil_append, nearbyLoop, h2]
    rw [if_pos hseen]
  | cons x mid ih =>
    intro seen acc hseen
    cases hx : processElement lat lng x with
    | error e => simp only [List.cons_append, nearbyLoop, hx]
    | ok o =>
      cases o with
      | none =>
        simp only [List.cons_append, nearbyLoop, hx]
        exact ih seen acc hseen
      | some ab =>
        obtain ⟨a, b⟩ := ab
        simp only [List.cons_append, nearbyLoop, hx]
        by_cases hk : (round4 a, round4 b) ∈ seen
        · rw [if_pos hk, if_pos hk]
          exact ih seen acc hseen
        · rw [if_neg hk, if_neg hk]
          exact ih _ _ (List.mem_cons_of_mem _ hseen)

/-- C3: two raw elements whose latitude and longitude each round to the same
4-decimal value yield one Place Result: wherever the pair sits in the element
stream, deleting the later element does not change the outcome (its tags
included), so the first-seen element alone is kept. -/
theorem C3_dedup_first_wins (lat lng : ℚ)
    (pre mid post : List RawElement) (el1 el2 : RawElement) (a1 b1 a2 b2 : ℚ)
    (h1 : processElement lat lng el1 = .ok (some (a1, b1)))
    (h2 : processElement lat lng el2 = .ok (some (a2, b2)))
    (hra : round4 a1 = round4 a2) (hrb : round4 b1 = round4 b2) :
    buildPlaces lat lng (pre ++ el1 :: (mid ++ el2 :: post)) =
      buildPlaces lat lng (pre ++ el1 :: (mid ++ post)) := by
  unfold buildPlaces
  have main : ∀ (pre : List RawElement) (seen : List (ℚ × ℚ)) (acc : List Place),
      nearbyLoop lat lng (pre ++ el1 :: (mid ++ el2 :: post)) seen acc =
        nearbyLoop lat lng (pre ++ el1 :: (mid ++ post)) seen acc := by
    intro pre
    induction pre with
    | nil =>
      intro seen acc
      simp only [List.nil_append, nearbyLoop, h1]
      by_cases hk : (round4 a1, round4 b1) ∈ seen
      · rw [if_pos hk, if_pos hk]
        exact nearbyLoop_skip_dup lat lng a2 b2 el2 post h2 mid seen acc (hra ▸ hrb ▸ hk)
      · rw [if_neg hk, if_neg hk]
        refine nearbyLoop_skip_dup lat lng a2 b2 el2 post h2 mid _ _ ?_
        rw [← hra, ← hrb]
        exact List.mem_cons_self _ _
    | cons x pre ih =>
      intro seen acc
      cases hx : processElement lat lng x with
      | error e => simp only [List.cons_append, nearbyLoop, hx]
      | ok o =>
        cases o with
        | none =>
          simp only [List.cons_append, nearbyLoop, hx]
          exact ih seen acc
        | some ab =>
          obtain ⟨a, b⟩ := ab
          simp only [List.cons_append, nearbyLoop, hx]
          by_cases hk : (round4 a, round4 b) ∈ seen
          · rw [if_pos hk, if_pos hk]
            exact ih seen acc
          · rw [if_neg hk, if_neg hk]
            exact ih _ _
  exact main pre [] []

theorem C3_witness :
    processElement 0 0 ⟨some "node", some 0, some 0, none, [("amenity", "toilets")]⟩ =
      .ok (some (0, 0)) ∧
    buildPlaces 0 0
        [⟨some "node", some 0, some 0, none, [("amenity", "toilets")]⟩,
         ⟨some "node", some 0, some 0, none, [("amenity", "bench")]⟩] =
      buildPlaces 0 0 [⟨some "node", some 0, some 0, none, [("amenity", "toilets")]⟩] :=
  ⟨rfl,
    C3_dedup_first_wins 0 0 [] [] []
      ⟨some "node", some 0, some 0, none, [("amenity", "toilets")]⟩
      ⟨some "node", some 0, some 0, none, [("amenity", "bench")]⟩
      0 0 0 0 rfl rfl rfl rfl⟩

/-- C7: an area-located (non-`"node"`) element with no center point is
skipped: deleting it from the element stream, wherever it sits, changes
nothing — it produces no Place Result and leaves the deduplication state
untouched for later elements. -/
theorem C7_no_center_skipped (lat lng : ℚ) (pre post : List RawElement)
    (el : RawElement) (t : String)
    (ht : el.type? = some t) (hn : t ≠ "node") (hc : el.center?.getD [] = []) :
    buildPlaces lat lng (pre ++ el :: post) = buildPlaces lat lng (pre ++ post) := by
  have hskip : processElement lat lng el = .ok none := by
    unfold processElement
    rw [ht]
    simp [if_neg hn, hc]
  unfold buildPlaces
  have main : ∀ (pre : List RawElement) (seen : List (ℚ × ℚ)) (acc : List Place),
      nearbyLoop lat lng (pre ++ el :: post) seen acc =
        nearbyLoop lat lng (pre ++ post) seen acc := by
    intro pre
    induction pre with
    | nil =>
      intro seen acc
      simp only [List.nil_append, nearbyLoop, hskip]
    | cons x pre ih =>
      intro seen acc
      cases hx : processElement lat lng x with
      | error e => simp only [List.cons_append, nearbyLoop, hx]
      | ok o =>
        cases o with
        | none =>
          simp only [List.cons_append, nearbyLoop, hx]
          exact ih seen acc
        | some ab =>
          obtain ⟨a, b⟩ := ab
          simp only [List.cons_append, nearbyLoop, hx]
          by_cases hk : (round4 a, round4 b) ∈ seen
          · rw [if_pos hk, if_pos hk]
            exact ih seen acc
          · rw [if_neg hk, if_neg hk]
            exact ih _ _
  exact main pre [] []

theorem C7_witness :
    buildPlaces 0 0 [⟨some "way", none, none, none, [("amenity", "park")]⟩] =
      buildPlaces 0 0 [] :=
  C7_no_center_skipped 0 0 [] [] ⟨some "way", none, none, none, [("amenity", "park")]⟩
    "way" rfl (by decide) rfl

theorem nearbyLoop_error_of_mem (lat lng : ℚ) (el : RawElement) (e : String)
    (herr : processElement lat lng el = .error e) :
    ∀ (els : List RawElement) (seen : List (ℚ × ℚ)) (acc : List Place),
      el ∈ els → ∃ e', nearbyLoop lat lng els seen acc = .error e' := by
  intro els
  induction els with
  | nil => intro seen acc h; exact absurd h (List.not_mem_nil _)
  | cons x rest ih =>
    intro seen acc h
    rcases List.mem_cons.mp h with hx | hx
    · subst hx
      exact ⟨e, by simp only [nearbyLoop, herr]⟩
    · cases hp : processElement lat lng x with
      | error e0 => exact ⟨e0, by simp only [nearbyLoop, hp]⟩
      | ok o =>
        cases o with
        | none =>
          obtain ⟨e', h'⟩ := ih seen acc hx
          exact ⟨e', by simp only [nearbyLoop, hp]; exact h'⟩
        | some ab =>
          obtain ⟨a, b⟩ := ab
          by_cases hk : (round4 a, round4 b) ∈ seen
          · obtain ⟨e', h'⟩ := ih seen acc hx
            exact ⟨e', by simp only [nearbyLoop, hp]; rw [if_pos hk]; exact h'⟩
          · obtain ⟨e', h'⟩ :=
              ih ((round4 a, round4 b) :: seen) (acc ++ [mkPlace lat lng a b x.tags]) hx
            exact ⟨e', by simp only [nearbyLoop, hp]; rw [if_neg hk]; exact h'⟩

/-- C9: one malformed element in the `elements` array — no `"type"` key, or a
`"node"` missing `"lat"` or `"lon"` — makes the whole operation degrade to an
empty `places` list with an error string; Place Results from well-formed
elements elsewhere in the array are discarded. -/
theorem C9_malformed_element_degrades (lat lng : ℚ) (filter : String)
    (els : List RawElement) (el : RawElement) (hmem : el ∈ els)
    (hmal : el.type? = none ∨
      (el.type? = some "node" ∧ (el.lat? = none ∨ el.lon? = none))) :
    (nearby lat lng filter (.elements els)).places = [] ∧
    ∃ e, (nearby lat lng filter (.elements els)).error = some e := by
  have herr : ∃ e, processElement lat lng el = .error e := by
    rcases hmal with h | ⟨h, hll⟩
    · exact ⟨_, by unfold processElement; rw [h]⟩
    · rcases hll with hl | hl
      · exact ⟨"\x27lat\x27", by unfold processElement; simp [h, hl]⟩
      · cases ha : el.lat? with
        | none => exact ⟨"\x27lat\x27", by unfold processElement; simp [h, ha]⟩
        | some a => exact ⟨"\x27lon\x27", by unfold processElement; simp [h, ha, hl]⟩
  obtain ⟨e, he⟩ := herr
  obtain ⟨e', he'⟩ := nearbyLoop_error_of_mem lat lng el e he els [] [] hmem
  have : nearby lat lng filter (.elements els) = { places := [], error := some e' } := by
    simp only [nearby, buildPlaces, he']
  rw [this]
  exact ⟨rfl, e', rfl⟩

theorem C9_witness :
    (nearby 0 0 "all"
      (.elements
        [⟨some "node", some 1, some 1, none, []⟩,
         ⟨some "node", none, none, none, []⟩])).places = [] ∧
    ∃ e, (nearby 0 0 "all"
      (.elements
        [⟨some "node", some 1, some 1, none, []⟩,
         ⟨some "node", none, none, none, []⟩])).error = some e :=
  C9_malformed_element_degrades 0 0 "all" _ ⟨some "node", none, none, none, []⟩
    (List.mem_cons_of_mem _ (List.mem_cons_self _ _))
    (Or.inr ⟨rfl, Or.inl rfl⟩)

theorem nearbyLoop_eq_coordsLoop (lat lng : ℚ) :
    ∀ (els : List RawElement) (seen : List (ℚ × ℚ))
      (acc : List ((ℚ × ℚ) × List (String × String))),
      nearbyLoop lat lng els seen (acc.map (fun x => mkPlace lat lng x.1.1 x.1.2 x.2)) =
        (coordsLoop lat lng els seen acc).map
          (List.map (fun x => mkPlace lat lng x.1.1 x.1.2 x.2)) := by
  intro els
  induction els with
  | nil => intro seen acc; rfl
  | cons x rest ih =>
    intro seen acc
    cases hx : processElement lat lng x with
    | error e => simp only [nearbyLoop, coordsLoop, hx]; rfl
    | ok o =>
      cases o with
      | none =>
        simp only [nearbyLoop, coordsLoop, hx]
        exact ih seen acc
      | some ab =>
        obtain ⟨a, b⟩ := ab
        simp only [nearbyLoop, coordsLoop, hx]
        by_cases hk : (round4 a, round4 b) ∈ seen
        · rw [if_pos hk, if_pos hk]
          exact ih seen acc
        · rw [if_neg hk, if_neg hk]
          have hmap :
              (acc.map (fun x => mkPlace lat lng x.1.1 x.1.2 x.2)) ++
                  [mkPlace lat lng a b x.tags] =
                (acc ++ [((a, b), x.tags)]).map (fun x => mkPlace lat lng x.1.1 x.1.2 x.2) := by
            simp
          rw [hmap]
          exact ih _ _

theorem buildPlaces_eq_buildCoords (lat lng : ℚ) (els : List RawElement) :
    buildPlaces lat lng els =
      (buildCoords lat lng els).map
        (List.map (fun x => mkPlace lat lng x.1.1 x.1.2 x.2)) := by
  have h := nearbyLoop_eq_coordsLoop lat lng els [] []
  simpa [buildPlaces, buildCoords] using h

/-- C10: the resolver never tests a computed distance.  Which elements become
Place Results is decided by `buildCoords`, a function that never computes a
distance; every selected (deduplicated) element is then turned into a Place
Result carrying its haversine distance, whatever that distance is — the
2000-meter radius exists only in the assembled query text (`clause`,
`overpassRadius`). -/
theorem C10_no_local_distance_filter (lat lng : ℚ) (els : List RawElement) :
    buildPlaces lat lng els =
      (buildCoords lat lng els).map
        (List.map (fun x => mkPlace lat lng x.1.1 x.1.2 x.2)) :=
  buildPlaces_eq_buildCoords lat lng els

theorem buildPlaces_ok_distance_nonneg (lat lng : ℚ) (els : List RawElement)
    (ps : List Place) (h : buildPlaces lat lng els = .ok ps) :
    ∀ p ∈ ps, 0 ≤ p.distance_m := by
  rw [buildPlaces_eq_buildCoords] at h
  cases hc : buildCoords lat lng els with
  | error e =>
    rw [hc] at h
    exact absurd h (by simp [Except.map])
  | ok cs =>
    rw [hc] at h
    simp only [Except.map, Except.ok.injEq] at h
    subst h
    intro p hp
    simp only [List.mem_map] at hp
    obtain ⟨x, hx, rfl⟩ := hp
    exact haversineZ_nonneg lat lng x.1.1 x.1.2

theorem sortPlaces_sorted (ps : List Place) :
    (sortPlaces ps).Pairwise (fun a b => a.distance_m ≤ b.distance_m) := by
  have hs : (List.mergeSort ps (fun a b => decide (a.distance_m ≤ b.distance_m))).Pairwise
      (fun a b => (decide (a.distance_m ≤ b.distance_m)) = true) := by
    apply List.sorted_mergeSort
    · intro a b c hab hbc
      simp only [decide_eq_true_eq] at hab hbc ⊢
      exact le_trans hab hbc
    · intro a b
      simp only [Bool.or_eq_true, decide_eq_true_eq]
      exact le_total _ _
  exact hs.imp (fun h => of_decide_eq_true h)

/-- C2: for every input and every upstream outcome, the returned `places`
list has at most 15 entries and is sorted non-decreasingly by `distance_m`. -/
theorem C2_at_most_15_sorted (lat lng : ℚ) (filter : String) (out : UpstreamOutcome) :
    (nearby lat lng filter out).places.length ≤ 15 ∧
    (nearby lat lng filter out).places.Pairwise
      (fun a b => a.distance_m ≤ b.distance_m) := by
  cases out with
  | transportFailure m => exact ⟨by simp [nearby], by simp [nearby]⟩
  | statusFailure m => exact ⟨by simp [nearby], by simp [nearby]⟩
  | decodeFailure m => exact ⟨by simp [nearby], by simp [nearby]⟩
  | elements els =>
    cases h : buildPlaces lat lng els with
    | error e => exact ⟨by simp [nearby, h], by simp [nearby, h]⟩
    | ok ps =>
      have hpl : (nearby lat lng filter (.elements els)).places =
          (sortPlaces ps).take 15 := by
        simp [nearby, h]
      constructor
      · rw [hpl]
        exact List.length_take_le 15 _
      · rw [hpl]
        exact List.Pairwise.sublist (List.take_sublist 15 _) (sortPlaces_sorted ps)

/-- C8: a non-`"node"` element whose non-empty `center` dictionary lacks
`"lat"` or `"lon"` gets the query point's own coordinate as the default; with
neither key it is placed at the query point itself, its `distance_m` is 0,
and, all distances being non-negative, the first entry of the returned sorted
list has distance 0. -/
theorem C8_center_defaults_to_query_point :
    (∀ (lat lng : ℚ) (t : String) (la lo : Option ℚ) (c : List (String × ℚ))
       (tags : List (String × String)), t ≠ "node" → c ≠ [] →
       processElement lat lng ⟨some t, la, lo, some c, tags⟩ =
         .ok (some ((c.lookup "lat").getD lat, (c.lookup "lon").getD lng))) ∧
    (∀ (lat lng : ℚ) (t : String) (la lo : Option ℚ) (c : List (String × ℚ))
       (tags : List (String × String)), t ≠ "node" → c ≠ [] →
       c.lookup "lat" = none → c.lookup "lon" = none →
       processElement lat lng ⟨some t, la, lo, some c, tags⟩ = .ok (some (lat, lng)) ∧
       haversineZ lat lng lat lng = 0) ∧
    (∀ (lat lng : ℚ) (filter : String) (els : List RawElement) (ps : List Place)
       (p : Place), buildPlaces lat lng els = .ok ps → p ∈ ps → p.distance_m = 0 →
       ((nearby lat lng filter (.elements els)).places.head?).map Place.distance_m =
         some 0) := by
  refine ⟨?_, ?_, ?_⟩
  · intro lat lng t la lo c tags hn hc
    unfold processElement
    simp [hn, hc]
  · intro lat lng t la lo c tags hn hc hl1 hl2
    refine ⟨?_, haversineZ_self lat lng⟩
    unfold processElement
    simp [hn, hc, hl1, hl2]
  · intro lat lng filter els ps p hb hp h0
    have hnn : ∀ q ∈ ps, 0 ≤ q.distance_m := buildPlaces_ok_distance_nonneg _ _ _ _ hb
    have hpl : (nearby lat lng filter (.elements els)).places =
        (sortPlaces ps).take 15 := by
      simp [nearby, hb]
    have hperm : List.Perm (sortPlaces ps) ps := List.mergeSort_perm ps _
    have hsorted := sortPlaces_sorted ps
    cases hsp : sortPlaces ps with
    | nil =>
      rw [hsp] at hperm
      rw [hperm.nil_eq.symm] at hp
      exact absurd hp (List.not_mem_nil _)
    | cons q t =>
      rw [hpl, hsp]
      have hq : q ∈ ps := hperm.subset (hsp ▸ List.mem_cons_self q t)
      have hq0 : 0 ≤ q.distance_m := hnn q hq
      have hp' : p ∈ q :: t := hsp ▸ hperm.symm.subset hp
      have hqz : q.distance_m = 0 := by
        rcases List.mem_cons.mp hp' with rfl | hpt
        · exact h0
        · rw [hsp] at hsorted
          have hle := (List.pairwise_cons.mp hsorted).1 p hpt
          omega
      simp [List.take_succ_cons, hqz]

theorem C8_witness :
    ((nearby 0 0 "all"
        (.elements [⟨some "way", none, none, some [("foo", 1)], []⟩])).places.head?).map
      Place.distance_m = some 0 := by
  have hbp : buildPlaces 0 0 [⟨some "way", none, none, some [("foo", 1)], []⟩] =
      .ok [mkPlace 0 0 0 0 []] := by
    rw [buildPlaces_eq_buildCoords]
    rfl
  have hd : (mkPlace 0 0 0 0 ([] : List (String × String))).distance_m = 0 :=
    haversineZ_self 0 0
  exact C8_center_defaults_to_query_point.2.2 0 0 "all"
    [⟨some "way", none, none, some [("foo", 1)], []⟩] [mkPlace 0 0 0 0 []]
    (mkPlace 0 0 0 0 []) hbp (List.mem_cons_self _ _) hd

end Navio
